import Mathlib

/-!
Verification development for the slash-command interaction layer of the
hikari repository (src/hikari/interactions/commands.py) and its legacy
guild-member entity (exercised by src/tests/hikari/orm/models/test_members.py).

Shallow embedding conventions:
* Snowflake identifiers are `Nat` (64-bit unsigned decimal-string ids).
* Python `Optional[X]` is `Option X`; the distinct `undefined.UNDEFINED`
  sentinel is the dedicated type `UndefOr`.
* The `app` collaborator held by every entity is passed explicitly to each
  operation as an `App` record (a REST client and an optional cache
  capability, the capability check `isinstance(app, traits.CacheAware)`
  being presence of the `cache` field, per the capability-contract design).
* Each operation returns its Python result paired with the list of
  collaborator calls it issued, in order, so that forwarding and
  call-count properties are stated over the explicit trace.
* A Python `assert` failure is `Except.error PyError.assertionError`.
-/

/-- The `hikari.undefined.UNDEFINED` sentinel: a value distinct from the
domain's own absence value (`Option.none`). -/
inductive UndefOr (α : Type) where
  | undefined : UndefOr α
  | value : α → UndefOr α
deriving DecidableEq, Repr

/-- Value of a `CommandChoice` (Python `Union[str, int]`). -/
inductive ChoiceValue where
  | str : String → ChoiceValue
  | int : Int → ChoiceValue
deriving DecidableEq, Repr

/-- `CommandChoice`: one permitted value for a command argument slot. -/
structure CommandChoice where
  name : String
  value : ChoiceValue
deriving DecidableEq, Repr

/-- `CommandOption`: one argument slot of a command; nests itself for
sub-command / sub-command-group slots.  `type` holds the raw wire integer
of `OptionType` (unknown integers stay representable). -/
inductive CommandOption where
  | mk (type : Nat) (name : String) (description : String)
      (is_required : Bool) (choices : Option (List CommandChoice))
      (options : Option (List CommandOption))

/-- Wire values of the `OptionType` enumeration. -/
def OptionType.SUB_COMMAND : Nat := 1

def OptionType.SUB_COMMAND_GROUP : Nat := 2

def OptionType.STRING : Nat := 3

def OptionType.INTEGER : Nat := 4

def OptionType.BOOLEAN : Nat := 5

def OptionType.USER : Nat := 6

def OptionType.CHANNEL : Nat := 7

def OptionType.ROLE : Nat := 8

def OptionType.MENTIONABLE : Nat := 9

/-- Wire value 4, `bases.ResponseType.MESSAGE_CREATE` (the literal is pinned
by the `CommandResponseTypesT` alias in commands.py). -/
def ResponseType.MESSAGE_CREATE : Nat := 4

/-- Wire value 5, `bases.ResponseType.DEFERRED_MESSAGE_CREATE` (pinned by the
`CommandResponseTypesT` alias in commands.py). -/
def ResponseType.DEFERRED_MESSAGE_CREATE : Nat := 5

/-- `COMMAND_RESPONSE_TYPES`: the closed allow-list of valid initial
response types for a command interaction (a frozenset in the source,
modelled as the list of its members). -/
def COMMAND_RESPONSE_TYPES : List Nat :=
  [ResponseType.MESSAGE_CREATE, ResponseType.DEFERRED_MESSAGE_CREATE]

/-- `Command`: a registered application command.  The `app` collaborator
field is passed explicitly to each operation instead of being stored. -/
structure Command where
  id : Nat
  application_id : Nat
  name : String
  description : String
  options : Option (List CommandOption)
  guild_id : Option Nat

/-- Model of an external guild object (`RESTGuild` / `GatewayGuild`);
content beyond identity is irrelevant to the properties verified here. -/
structure Guild where
  id : Nat
deriving DecidableEq, Repr

/-- Kind tag for cached guild-channel objects, enough to decide the
`isinstance(channel, (GuildTextChannel, GuildNewsChannel))` check. -/
inductive ChannelKind where
  | guildText
  | guildNews
  | guildVoice
  | guildCategory
  | other
deriving DecidableEq, Repr

/-- Model of a cached guild channel object. -/
structure GuildChannel where
  id : Nat
  kind : ChannelKind
deriving DecidableEq, Repr

/-- Builder returned by `rest.interaction_message_builder`. -/
structure InteractionMessageBuilder where
  response_type : Nat
deriving DecidableEq, Repr

/-- Builder returned by `rest.interaction_deferred_builder`. -/
structure InteractionDeferredBuilder where
  response_type : Nat
deriving DecidableEq, Repr

/-- One invocation of the REST capability, with the exact arguments
forwarded to it. -/
inductive RESTCall where
  | fetch_application_command (application : Nat) (command : Nat) (guild : UndefOr Nat)
  | edit_application_command (application : Nat) (command : Nat) (guild : UndefOr Nat)
      (name : UndefOr String) (description : UndefOr String)
      (options : UndefOr (List CommandOption))
  | delete_application_command (application : Nat) (command : Nat) (guild : UndefOr Nat)
  | fetch_guild (guild : Nat)
  | interaction_message_builder (response_type : Nat)
  | interaction_deferred_builder (response_type : Nat)

/-- One invocation of the cache capability, with the argument forwarded. -/
inductive CacheCall where
  | get_guild_channel (channel : Nat)
  | get_guild (guild : Nat)
deriving DecidableEq, Repr

/-- The REST capability contract (§6): response functions for each
endpoint the verified operations call. -/
structure RESTClient where
  fetch_application_command : Nat → Nat → UndefOr Nat → Command
  edit_application_command : Nat → Nat → UndefOr Nat → UndefOr String → UndefOr String →
      UndefOr (List CommandOption) → Command
  delete_application_command : Nat → Nat → UndefOr Nat → Unit
  fetch_guild : Nat → Guild
  interaction_message_builder : Nat → InteractionMessageBuilder
  interaction_deferred_builder : Nat → InteractionDeferredBuilder

/-- The optional cache capability contract (§6): return-absent-on-miss
lookups. -/
structure Cache where
  get_guild_channel : Nat → Option GuildChannel
  get_guild : Nat → Option Guild

/-- The app context: always REST-aware; cache-aware exactly when `cache`
is present (`isinstance(self.app, traits.CacheAware)`). -/
structure App where
  rest : RESTClient
  cache : Option Cache

/-- Translation of the guild-scope expression repeated in `fetch_self`,
`edit` and `delete`:
`undefined.UNDEFINED if self.guild_id is None else self.guild_id`. -/
def undefinedIfNone : Option Nat → UndefOr Nat
  | none => UndefOr.undefined
  | some g => UndefOr.value g

/-- `Command.fetch_self`: one REST call
`fetch_application_command(application_id, id, UNDEFINED if guild_id is None else guild_id)`,
returning the collaborator's response unchanged, paired with the call trace. -/
def Command.fetch_self (self : Command) (app : App) : Command × List RESTCall :=
  (app.rest.fetch_application_command self.application_id self.id
      (undefinedIfNone self.guild_id),
   [RESTCall.fetch_application_command self.application_id self.id
      (undefinedIfNone self.guild_id)])

/-- `Command.edit`: one REST call `edit_application_command` forwarding
`(application_id, id, guild-scope, name, description, options)`; the three
keyword parameters default to `UNDEFINED` in the source and are passed
through unchanged. -/
def Command.edit (self : Command) (app : App) (name : UndefOr String)
    (description : UndefOr String) (options : UndefOr (List CommandOption)) :
    Command × List RESTCall :=
  (app.rest.edit_application_command self.application_id self.id
      (undefinedIfNone self.guild_id) name description options,
   [RESTCall.edit_application_command self.application_id self.id
      (undefinedIfNone self.guild_id) name description options])

/-- `Command.delete`: one REST call `delete_application_command`; the
Python method returns `None`, so only the call trace is modelled. -/
def Command.delete (self : Command) (app : App) : List RESTCall :=
  let _ := app.rest.delete_application_command self.application_id self.id
      (undefinedIfNone self.guild_id)
  [RESTCall.delete_application_command self.application_id self.id
      (undefinedIfNone self.guild_id)]

/-- A leaf value inside `CommandInteractionOption.value`
(Python `Union[str, int, bool]`). -/
inductive OptionValue where
  | str : String → OptionValue
  | int : Int → OptionValue
  | bool : Bool → OptionValue
deriving DecidableEq, Repr

/-- `CommandInteractionOption`: the argument tree supplied by the invoking
user.  Faithful to the source model: `value` and `options` are two
independent optional fields of one record (the exclusivity of the two is
documentation, not structure). -/
inductive CommandInteractionOption where
  | mk (name : String) (type : Nat)
      (value : Option (List OptionValue))
      (options : Option (List CommandInteractionOption))

/-- Projection: `CommandInteractionOption.name`. -/
def CommandInteractionOption.name : CommandInteractionOption → String
  | .mk n _ _ _ => n

/-- Projection: `CommandInteractionOption.type`. -/
def CommandInteractionOption.type : CommandInteractionOption → Nat
  | .mk _ t _ _ => t

/-- Projection: `CommandInteractionOption.value`. -/
def CommandInteractionOption.value : CommandInteractionOption → Option (List OptionValue)
  | .mk _ _ v _ => v

/-- Projection: `CommandInteractionOption.options`. -/
def CommandInteractionOption.options :
    CommandInteractionOption → Option (List CommandInteractionOption)
  | .mk _ _ _ o => o

/-- Model of an external user object. -/
structure DiscordUser where
  id : Nat
deriving DecidableEq, Repr

/-- `InteractionMember`: member variant carrying the invoker's permission
bitset. -/
structure InteractionMember where
  user_id : Nat
  permissions : Nat
deriving DecidableEq, Repr

/-- `InteractionChannel`: partial channel extended with the invoker's
permission bitset. -/
structure InteractionChannel where
  id : Nat
  permissions : Nat
deriving DecidableEq, Repr

/-- Model of an external role object referenced by resolved data. -/
structure ResolvedRole where
  id : Nat
deriving DecidableEq, Repr

/-- `ResolvedOptionData`: the four identifier-keyed lookup tables,
modelled as association lists. -/
structure ResolvedOptionData where
  users : List (Nat × DiscordUser)
  members : List (Nat × InteractionMember)
  roles : List (Nat × ResolvedRole)
  channels : List (Nat × InteractionChannel)

/-- `CommandInteraction`: the top-level record for one command
invocation.  `id`, `application_id`, `type`, `token` and `version` come
from the base interaction mixin, as constructed by the repository's test
fixture; the `app` collaborator is passed explicitly to each operation. -/
structure CommandInteraction where
  id : Nat
  application_id : Nat
  type : Nat
  token : String
  version : Nat
  channel_id : Nat
  guild_id : Option Nat
  member : Option InteractionMember
  user : DiscordUser
  command_id : Nat
  command_name : String
  options : Option (List CommandInteractionOption)
  resolved : Option ResolvedOptionData

/-- A raised Python exception distinguished from a normal return. -/
inductive PyError where
  | assertionError
deriving DecidableEq, Repr

/-- Python truthiness of an `Optional[Snowflake]`: `None` and `0` are
falsy, every other integer is truthy. -/
def pyTruthy : Option Nat → Bool
  | none => false
  | some n => n != 0

/-- Translation of the guild argument `self.guild_id or undefined.UNDEFINED`
in `fetch_command`: the id when truthy, else the `UNDEFINED` sentinel. -/
def orUndefined : Option Nat → UndefOr Nat
  | none => UndefOr.undefined
  | some g => if g != 0 then UndefOr.value g else UndefOr.undefined

/-- `CommandInteraction.build_response`: one REST call
`interaction_message_builder(ResponseType.MESSAGE_CREATE)`, returning the
collaborator's builder unchanged. -/
def CommandInteraction.build_response (_self : CommandInteraction) (app : App) :
    InteractionMessageBuilder × List RESTCall :=
  (app.rest.interaction_message_builder ResponseType.MESSAGE_CREATE,
   [RESTCall.interaction_message_builder ResponseType.MESSAGE_CREATE])

/-- `CommandInteraction.build_deferred_response`: one REST call
`interaction_deferred_builder(ResponseType.DEFERRED_MESSAGE_CREATE)`,
returning the collaborator's builder unchanged. -/
def CommandInteraction.build_deferred_response (_self : CommandInteraction) (app : App) :
    InteractionDeferredBuilder × List RESTCall :=
  (app.rest.interaction_deferred_builder ResponseType.DEFERRED_MESSAGE_CREATE,
   [RESTCall.interaction_deferred_builder ResponseType.DEFERRED_MESSAGE_CREATE])

/-- `CommandInteraction.get_channel`: if the app is cache-aware, look up
`channel_id` in the guild-channel cache and then
`assert isinstance(channel, (GuildTextChannel, GuildNewsChannel))` before
returning it (the assert fails on a cache miss or any other channel kind);
without cache capability, return `None` with no lookup.  Synchronous: no
REST call is ever issued. -/
def CommandInteraction.get_channel (self : CommandInteraction) (app : App) :
    Except PyError (Option GuildChannel) × List CacheCall :=
  match app.cache with
  | some cache =>
      let channel := cache.get_guild_channel self.channel_id
      match channel with
      | some c =>
          if c.kind = ChannelKind.guildText ∨ c.kind = ChannelKind.guildNews then
            (Except.ok (some c), [CacheCall.get_guild_channel self.channel_id])
          else
            (Except.error PyError.assertionError,
             [CacheCall.get_guild_channel self.channel_id])
      | none =>
          (Except.error PyError.assertionError,
           [CacheCall.get_guild_channel self.channel_id])
  | none => (Except.ok none, [])

/-- `CommandInteraction.fetch_command`: one REST call
`fetch_application_command(application=self.application_id, command=self.id,
guild=self.guild_id or UNDEFINED)`.  Note the source forwards `self.id`
(the interaction's own snowflake), not `self.command_id`. -/
def CommandInteraction.fetch_command (self : CommandInteraction) (app : App) :
    Command × List RESTCall :=
  (app.rest.fetch_application_command self.application_id self.id
      (orUndefined self.guild_id),
   [RESTCall.fetch_application_command self.application_id self.id
      (orUndefined self.guild_id)])

/-- `CommandInteraction.fetch_guild`:
`if not self.guild_id: return None` (falsy: `None` or `0`), else one REST
call `fetch_guild(self.guild_id)` whose result is returned. -/
def CommandInteraction.fetch_guild (self : CommandInteraction) (app : App) :
    Option Guild × List RESTCall :=
  match self.guild_id with
  | none => (none, [])
  | some g =>
      if g != 0 then (some (app.rest.fetch_guild g), [RESTCall.fetch_guild g])
      else (none, [])

/-- `CommandInteraction.get_guild`:
`if self.guild_id and isinstance(self.app, traits.CacheAware)` then return
the cache's `get_guild(self.guild_id)` result, else `None` with no cache
call.  Synchronous: no REST call is ever issued. -/
def CommandInteraction.get_guild (self : CommandInteraction) (app : App) :
    Option Guild × List CacheCall :=
  match self.guild_id, app.cache with
  | some g, some cache =>
      if g != 0 then (cache.get_guild g, [CacheCall.get_guild g])
      else (none, [])
  | _, _ => (none, [])

/-- Split a character list on a separator character (structural version
of string splitting, so that concrete parses reduce in the kernel). -/
def splitOnChar (sep : Char) : List Char → List (List Char)
  | [] => [[]]
  | c :: rest =>
    let r := splitOnChar sep rest
    if c = sep then [] :: r
    else
      match r with
      | head :: tail => (c :: head) :: tail
      | [] => [[c]]

/-- Parse a fixed-width all-digit field of the given length. -/
def parseDigits (cs : List Char) (len : Nat) : Option Nat :=
  if cs.length = len ∧ cs.all Char.isDigit then
    some (cs.foldl (fun acc c => acc * 10 + (c.toNat - 48)) 0)
  else none

/-- A timezone-aware timestamp (offset in minutes east of UTC). -/
structure Timestamp where
  year : Nat
  month : Nat
  day : Nat
  hour : Nat
  minute : Nat
  second : Nat
  microsecond : Nat
  tz_offset_minutes : Nat
deriving DecidableEq, Repr

/-- Modelled from the spec: the ISO-8601 timestamp parsing used by the
legacy Member entity (the date-helper module is not under src/).  Accepts
the timezone-aware form exercised by the test suite,
`YYYY-MM-DDTHH:MM:SS[.ffffff]+HH:MM`, and fails (`none`) on anything
malformed. -/
def parseTimestamp (s : String) : Option Timestamp :=
  match splitOnChar 'T' s.data with
  | [d, t] =>
    match splitOnChar '-' d with
    | [y, mo, da] =>
      match parseDigits y 4, parseDigits mo 2, parseDigits da 2 with
      | some yv, some mov, some dav =>
        if mov = 0 ∨ mov > 12 ∨ dav = 0 ∨ dav > 31 then none else
        match splitOnChar '+' t with
        | [time, off] =>
          match
            (match splitOnChar '.' time with
             | [hms] => some (hms, 0)
             | [hms, f] =>
               match parseDigits f 6 with
               | some fv => some (hms, fv)
               | none => none
             | _ => none) with
          | some (hms, frac) =>
            match splitOnChar ':' hms with
            | [h, mi, se] =>
              match parseDigits h 2, parseDigits mi 2, parseDigits se 2 with
              | some hv, some miv, some sev =>
                if hv > 23 ∨ miv > 59 ∨ sev > 59 then none else
                match splitOnChar ':' off with
                | [oh, om] =>
                  match parseDigits oh 2, parseDigits om 2 with
                  | some ohv, some omv =>
                    some ⟨yv, mov, dav, hv, miv, sev, frac, ohv * 60 + omv⟩
                  | _, _ => none
                | _ => none
              | _, _, _ => none
            | _ => none
          | none => none
        | _ => none
      | _, _, _ => none
    | _ => none
  | _ => none

/-- Raw embedded user data (or an already-resolved user object) handed to
`state_registry.parse_user`. -/
structure UserPayload where
  id : String
deriving DecidableEq, Repr

/-- A resolved user object, as produced by the state registry. -/
structure LegacyUser where
  id : String
deriving DecidableEq, Repr

/-- A resolved role object, as produced by the state registry. -/
structure LegacyRole where
  id : String
deriving DecidableEq, Repr

/-- A guild object in the legacy ORM fragment. -/
structure LegacyGuild where
  id : Nat
deriving DecidableEq, Repr

/-- Modelled from the spec: the `state_registry` capability of the legacy
entity boundary (§6) — `parse_user`, role lookup by raw id string, and
`get_guild_by_id`; its implementation is not under src/. -/
structure StateRegistry where
  parse_user : UserPayload → LegacyUser
  resolve_role : String → LegacyRole
  get_guild_by_id : Nat → Option LegacyGuild

/-- The `fabric` shared dependency-injection context. -/
structure Fabric where
  state_registry : StateRegistry

/-- The raw membership mapping: each field is `none` when the key is
missing from the mapping. -/
structure RawMember where
  nick : Option String
  roles : Option (List String)
  joined_at : Option String
  premium_since : Option String
  user : Option UserPayload
  guild_id : Option Nat
  deaf : Option Bool
  mute : Option Bool

/-- A construction failure of the legacy Member entity: a missing required
key or a malformed timestamp string. -/
inductive ConstructError where
  | missingKey : String → ConstructError
  | invalidFormat : ConstructError
deriving DecidableEq, Repr

/-- The legacy guild Member entity. -/
structure Member where
  nick : Option String
  roles : List LegacyRole
  joined_at : Timestamp
  premium_since : Option Timestamp
  user : LegacyUser
  guild : LegacyGuild
deriving DecidableEq, Repr

/-- Modelled from the spec: parsing of the optional `premium_since` key —
absent key is allowed, a present but malformed timestamp fails. -/
def parsePremium : Option String → Except ConstructError (Option Timestamp)
  | none => Except.ok none
  | some s =>
    match parseTimestamp s with
    | none => Except.error ConstructError.invalidFormat
    | some t => Except.ok (some t)

/-- Modelled from the spec: construction of the legacy Member entity
(§4.7; members.py itself is not under src/).  Missing `user` or
`joined_at` keys and malformed timestamps fail construction with no
recovery; `nick` is absent when its key is missing; `roles` are resolved
through the registry in order.  Where the spec's §7 wording (`roles`
required) contradicts the repository's own tests, the tests win: both
test_Member_user_accessor and test_Member_guild_accessor construct a
Member from a mapping with no `roles` key and expect success, so a
missing `roles` key yields the empty role list.  The `deaf`/`mute` keys
are ignored.  The check order here is user, joined_at, premium_since. -/
def Member.construct (fab : Fabric) (guild : LegacyGuild) (p : RawMember) :
    Except ConstructError Member :=
  match p.user with
  | none => Except.error (ConstructError.missingKey ("user"))
  | some rawUser =>
    match p.joined_at with
    | none => Except.error (ConstructError.missingKey ("joined_at"))
    | some joinedRaw =>
      match parseTimestamp joinedRaw with
      | none => Except.error ConstructError.invalidFormat
      | some joined =>
        match parsePremium p.premium_since with
        | Except.error e => Except.error e
        | Except.ok premium =>
          Except.ok
            { nick := p.nick,
              roles := (p.roles.getD []).map fab.state_registry.resolve_role,
              joined_at := joined,
              premium_since := premium,
              user := fab.state_registry.parse_user rawUser,
              guild := guild }

/-- Whether legacy Member construction succeeded. -/
def constructSucceeds : Except ConstructError Member → Bool
  | Except.ok _ => true
  | Except.error _ => false

/-- Modelled from the spec: `Member.update_state(new_roles, new_nick)` —
the only mutation path, replacing `roles` and `nick` in place and nothing
else. -/
def Member.update_state (self : Member) (new_roles : List LegacyRole)
    (new_nick : Option String) : Member :=
  { self with roles := new_roles, nick := new_nick }

/-- A concrete REST collaborator used to evaluate operations on concrete
inputs. -/
def sampleRest : RESTClient where
  fetch_application_command := fun a c _g =>
    { id := c, application_id := a, name := "", description := "",
      options := none, guild_id := none }
  edit_application_command := fun a c _g _n _d _o =>
    { id := c, application_id := a, name := "", description := "",
      options := none, guild_id := none }
  delete_application_command := fun _ _ _ => ()
  fetch_guild := fun g => { id := g }
  interaction_message_builder := fun t => { response_type := t }
  interaction_deferred_builder := fun t => { response_type := t }

/-- A cache with no guild channels and no guilds (every lookup misses). -/
def emptyCache : Cache where
  get_guild_channel := fun _ => none
  get_guild := fun _ => none

/-- The guild text channel stored for id 3123123 in `hitCache`. -/
def textChannel3123123 : GuildChannel :=
  { id := 3123123, kind := ChannelKind.guildText }

/-- A cache holding a guild text channel under the fixture's channel id
and a guild under every id. -/
def hitCache : Cache where
  get_guild_channel := fun c => if c = 3123123 then some textChannel3123123 else none
  get_guild := fun g => some { id := g }

/-- A cache-aware app whose guild-channel lookups always miss. -/
def cacheMissApp : App := { rest := sampleRest, cache := some emptyCache }

/-- A cache-aware app whose cache holds the fixture channel and guilds. -/
def cacheHitApp : App := { rest := sampleRest, cache := some hitCache }

/-- A REST-only app with no cache capability. -/
def restOnlyApp : App := { rest := sampleRest, cache := none }

/-- The repository's test-fixture interaction (test_commands.py), with
`guild_id` set to 342123 as in test_fetch_command_for_guild_command.
Its own id (2312312) differs from its command_id (3123123). -/
def fixtureInteraction : CommandInteraction :=
  { id := 2312312, application_id := 43123, type := 2,
    token := "httptptptptptptptp", version := 1,
    channel_id := 3123123, guild_id := some 342123,
    member := some { user_id := 123, permissions := 0 },
    user := { id := 123 },
    command_id := 3123123, command_name := "OKOKOK",
    options := some [], resolved := none }

/-- The fixture interaction as a DM-triggered interaction (no guild_id). -/
def dmInteraction : CommandInteraction := { fixtureInteraction with guild_id := none }

/-- The fixture interaction with a present-but-zero guild_id. -/
def zeroGuildInteraction : CommandInteraction :=
  { fixtureInteraction with guild_id := some 0 }

/-- The fixture interaction with guild_id 43123123, as in test_fetch_guild. -/
def guildInteraction : CommandInteraction :=
  { fixtureInteraction with guild_id := some 43123123 }

/-- A concrete state registry for evaluating legacy Member construction. -/
def sampleRegistry : StateRegistry where
  parse_user := fun u => { id := u.id }
  resolve_role := fun s => { id := s }
  get_guild_by_id := fun g => some { id := g }

/-- A concrete fabric context wrapping `sampleRegistry`. -/
def sampleFabric : Fabric := { state_registry := sampleRegistry }

/-- The owning guild used by the member test suite (id 12345). -/
def sampleLegacyGuild : LegacyGuild := { id := 12345 }

/-- Mapping with no `user` key. -/
def payloadNoUser : RawMember :=
  { nick := none, roles := some ["11111", "22222", "33333", "44444"],
    joined_at := some ("2015-04-26T06:26:56.936000+00:00"),
    premium_since := none, user := none, guild_id := none,
    deaf := none, mute := none }

/-- Mapping with no `joined_at` key. -/
def payloadNoJoined : RawMember :=
  { nick := none, roles := some ["11111", "22222", "33333", "44444"],
    joined_at := none, premium_since := none,
    user := some { id := "123456" }, guild_id := none,
    deaf := none, mute := none }

/-- Mapping whose `joined_at` value is a malformed timestamp string. -/
def payloadBadTimestamp : RawMember :=
  { nick := none, roles := some ["11111", "22222", "33333", "44444"],
    joined_at := some ("not-a-timestamp"), premium_since := none,
    user := some { id := "123456" }, guild_id := none,
    deaf := none, mute := none }

/-- The mapping of test_Member_user_accessor: `joined_at` and `user` only —
in particular no `roles` key. -/
def payloadNoRoles : RawMember :=
  { nick := none, roles := none,
    joined_at := some ("2019-05-17T06:26:56.936000+00:00"),
    premium_since := none, user := some { id := "123456" },
    guild_id := none, deaf := none, mute := none }

/-- The parsed form of the accessor tests' timestamp
2019-05-17T06:26:56.936000+00:00. -/
def ts20190517 : Timestamp := ⟨2019, 5, 17, 6, 26, 56, 936000, 0⟩

/-- The parsed form of the filled-fields test's joined_at timestamp
2015-04-26T06:26:56.936000+00:00. -/
def ts20150426 : Timestamp := ⟨2015, 4, 26, 6, 26, 56, 936000, 0⟩

/-- Mapping whose `premium_since` value is a malformed timestamp string
while every other key is well-formed. -/
def payloadBadPremium : RawMember :=
  { nick := none, roles := some ["11111", "22222", "33333", "44444"],
    joined_at := some ("2015-04-26T06:26:56.936000+00:00"),
    premium_since := some ("premium-soon"),
    user := some { id := "123456" }, guild_id := none,
    deaf := none, mute := none }

/-- Mapping with no `roles` key but a well-formed `premium_since`. -/
def payloadNoRolesPremium : RawMember :=
  { nick := none, roles := none,
    joined_at := some ("2015-04-26T06:26:56.936000+00:00"),
    premium_since := some ("2019-05-17T06:26:56.936000+00:00"),
    user := some { id := "123456" }, guild_id := none,
    deaf := none, mute := none }

/-- Claim C1: the claim states that fetch_command forwards the
interaction's command_id as the REST call's command argument.  Evaluated
on the repository's own test fixture, the code instead forwards the
interaction's own id (2312312) as the command argument — not its
command_id (3123123) — so the command requested is not the one identified
by command_id. -/
theorem C1_fetch_command_forwards_interaction_id :
    (fixtureInteraction.fetch_command cacheHitApp).2
      = [RESTCall.fetch_application_command 43123 2312312 (UndefOr.value 342123)]
    ∧ fixtureInteraction.command_id = 3123123
    ∧ fixtureInteraction.id ≠ fixtureInteraction.command_id :=
  ⟨rfl, rfl, by decide⟩

/-- Claim C2: the claim states that get_channel returns absent for every
DM-triggered interaction regardless of cache capability.  With a
cache-aware app whose guild-channel cache misses (the normal DM
situation), the code instead fails its isinstance assertion; only the
cache-less branch returns absent. -/
theorem C2_dm_get_channel_asserts :
    dmInteraction.guild_id = none
    ∧ (dmInteraction.get_channel cacheMissApp).1 = Except.error PyError.assertionError
    ∧ (dmInteraction.get_channel restOnlyApp).1 = Except.ok none :=
  ⟨rfl, rfl, rfl⟩

/-- Claim C3: the claim states that get_channel returns exactly the
cache's lookup result, returning absent on a miss or non-text/news
channel, and absent without lookup when no cache capability exists.  The
hit and no-cache branches behave as claimed, but on a cache miss the code
fails its isinstance assertion instead of returning absent. -/
theorem C3_get_channel_cache_behavior :
    (fixtureInteraction.get_channel cacheHitApp).1 = Except.ok (some textChannel3123123)
    ∧ (fixtureInteraction.get_channel cacheHitApp).2 = [CacheCall.get_guild_channel 3123123]
    ∧ fixtureInteraction.get_channel restOnlyApp = (Except.ok none, [])
    ∧ (fixtureInteraction.get_channel cacheMissApp).1 = Except.error PyError.assertionError :=
  ⟨rfl, rfl, rfl, rfl⟩

/-- Claim C4: fetch_self, edit and delete each forward exactly
(application_id, id, guild_id) to their REST operation, substituting the
UNDEFINED sentinel — not the raw absent value — as the third argument
when guild_id is absent. -/
theorem C4_scope_substitution (c : Command) (app : App)
    (n d : UndefOr String) (o : UndefOr (List CommandOption)) :
    ((c.fetch_self app).2
      = [RESTCall.fetch_application_command c.application_id c.id
          (undefinedIfNone c.guild_id)])
    ∧ ((c.edit app n d o).2
      = [RESTCall.edit_application_command c.application_id c.id
          (undefinedIfNone c.guild_id) n d o])
    ∧ (c.delete app
      = [RESTCall.delete_application_command c.application_id c.id
          (undefinedIfNone c.guild_id)])
    ∧ undefinedIfNone none = UndefOr.undefined
    ∧ (∀ g : Nat, undefinedIfNone (some g) = UndefOr.value g) :=
  ⟨rfl, rfl, rfl, rfl, fun _ => rfl⟩

/-- Claim C5: edit called with no arguments forwards the UNDEFINED
sentinel for name, description and options; called with explicit values
it forwards exactly those; guild scoping follows the same sentinel rule
as fetch_self; the REST collaborator's result is returned unchanged. -/
theorem C5_edit_forwarding (c : Command) (app : App)
    (n d : UndefOr String) (o : UndefOr (List CommandOption)) :
    ((c.edit app UndefOr.undefined UndefOr.undefined UndefOr.undefined).2
      = [RESTCall.edit_application_command c.application_id c.id
          (undefinedIfNone c.guild_id)
          UndefOr.undefined UndefOr.undefined UndefOr.undefined])
    ∧ ((c.edit app n d o).2
      = [RESTCall.edit_application_command c.application_id c.id
          (undefinedIfNone c.guild_id) n d o])
    ∧ ((c.edit app n d o).1
      = app.rest.edit_application_command c.application_id c.id
          (undefinedIfNone c.guild_id) n d o) :=
  ⟨rfl, rfl, rfl⟩

/-- Claim C6 (amended): when guild_id is absent or present-but-zero
(Python-falsy), fetch_guild and get_guild return absent with zero
collaborator calls; when guild_id is present and nonzero, each forwards
exactly that id exactly once, get_guild additionally returning absent
with no cache call when the app has no cache capability. -/
theorem C6_guild_scoping (i : CommandInteraction) (app : App) :
    (pyTruthy i.guild_id = false →
        i.fetch_guild app = (none, []) ∧ i.get_guild app = (none, []))
    ∧ (∀ g : Nat, i.guild_id = some g → g ≠ 0 →
        ((i.fetch_guild app).2 = [RESTCall.fetch_guild g]
        ∧ (i.fetch_guild app).1 = some (app.rest.fetch_guild g)
        ∧ (app.cache = none → i.get_guild app = (none, []))
        ∧ ∀ cache, app.cache = some cache →
            i.get_guild app = (cache.get_guild g, [CacheCall.get_guild g]))) := by
  constructor
  · intro h
    cases hg : i.guild_id with
    | none =>
        cases hc : app.cache with
        | none =>
            exact ⟨by simp [CommandInteraction.fetch_guild, hg],
                   by simp [CommandInteraction.get_guild, hg, hc]⟩
        | some cache =>
            exact ⟨by simp [CommandInteraction.fetch_guild, hg],
                   by simp [CommandInteraction.get_guild, hg, hc]⟩
    | some g =>
        have hz : (g != 0) = false := by
          rw [hg] at h
          simpa [pyTruthy] using h
        cases hc : app.cache with
        | none =>
            exact ⟨by simp [CommandInteraction.fetch_guild, hg, hz],
                   by simp [CommandInteraction.get_guild, hg, hc]⟩
        | some cache =>
            exact ⟨by simp [CommandInteraction.fetch_guild, hg, hz],
                   by simp [CommandInteraction.get_guild, hg, hc, hz]⟩
  · intro g hg hz
    have hb : (g != 0) = true := by simpa using hz
    refine ⟨by simp [CommandInteraction.fetch_guild, hg, hb],
            by simp [CommandInteraction.fetch_guild, hg, hb],
            ?_, ?_⟩
    · intro hc
      simp [CommandInteraction.get_guild, hg, hc]
    · intro cache hc
      simp [CommandInteraction.get_guild, hg, hc, hb]

/-- Counterexample to claim C6 as stated: guild_id is present (some 0),
yet fetch_guild and get_guild return absent with zero collaborator calls,
because the source tests Python truthiness of guild_id, not presence. -/
theorem C6_counterexample :
    zeroGuildInteraction.guild_id = some 0
    ∧ zeroGuildInteraction.fetch_guild cacheHitApp = (none, [])
    ∧ zeroGuildInteraction.get_guild cacheHitApp = (none, []) :=
  ⟨rfl, rfl, rfl⟩

/-- Witness for C6_guild_scoping: the DM fixture short-circuits both
operations, and guild_id 43123123 is forwarded exactly once to each
collaborator (with the cacheless app making no cache call). -/
theorem C6_guild_scoping_witness :
    (dmInteraction.fetch_guild cacheHitApp = (none, [])
      ∧ dmInteraction.get_guild cacheHitApp = (none, []))
    ∧ ((guildInteraction.fetch_guild cacheHitApp).2 = [RESTCall.fetch_guild 43123123]
      ∧ (guildInteraction.fetch_guild cacheHitApp).1 = some (sampleRest.fetch_guild 43123123)
      ∧ guildInteraction.get_guild restOnlyApp = (none, [])
      ∧ guildInteraction.get_guild cacheHitApp
          = (hitCache.get_guild 43123123, [CacheCall.get_guild 43123123])) := by
  have h1 := (C6_guild_scoping dmInteraction cacheHitApp).1 (by decide)
  have h2 := (C6_guild_scoping guildInteraction cacheHitApp).2 43123123 rfl (by decide)
  have h3 := (C6_guild_scoping guildInteraction restOnlyApp).2 43123123 rfl (by decide)
  exact ⟨h1, h2.1, h2.2.1, h3.2.2.1 rfl, h2.2.2.2 hitCache rfl⟩

/-- Claim C7: build_response requests a message builder seeded with
response-type 4 (MESSAGE_CREATE) and build_deferred_response a deferred
builder seeded with 5 (DEFERRED_MESSAGE_CREATE); each returns the
collaborator's builder unchanged, and both values are members of the
COMMAND_RESPONSE_TYPES allow-list. -/
theorem C7_response_builders (i : CommandInteraction) (app : App) :
    ((i.build_response app).2 = [RESTCall.interaction_message_builder 4])
    ∧ ((i.build_response app).1 = app.rest.interaction_message_builder 4)
    ∧ ((i.build_deferred_response app).2 = [RESTCall.interaction_deferred_builder 5])
    ∧ ((i.build_deferred_response app).1 = app.rest.interaction_deferred_builder 5)
    ∧ ResponseType.MESSAGE_CREATE = 4
    ∧ ResponseType.DEFERRED_MESSAGE_CREATE = 5
    ∧ ResponseType.MESSAGE_CREATE ∈ COMMAND_RESPONSE_TYPES
    ∧ ResponseType.DEFERRED_MESSAGE_CREATE ∈ COMMAND_RESPONSE_TYPES :=
  ⟨rfl, rfl, rfl, rfl, rfl, rfl, by decide, by decide⟩

/-- Claim C8 (amended): legacy Member construction fails with a
missing-key / invalid-format error, with no recovery, when the `user` or
`joined_at` key is missing or when a present timestamp string — whether
`joined_at` or `premium_since` — is malformed; a missing `roles` key does
not fail construction — whatever the rest of the mapping holds, it yields
the empty role list, as the repository's own member tests require. -/
theorem C8_required_keys (fab : Fabric) (g : LegacyGuild) (p : RawMember) :
    (p.user = none → constructSucceeds (Member.construct fab g p) = false)
    ∧ (p.joined_at = none → constructSucceeds (Member.construct fab g p) = false)
    ∧ (∀ s, p.joined_at = some s → parseTimestamp s = none →
        constructSucceeds (Member.construct fab g p) = false)
    ∧ (∀ s, p.premium_since = some s → parseTimestamp s = none →
        constructSucceeds (Member.construct fab g p) = false)
    ∧ (∀ u s t pt, p.roles = none → p.user = some u → p.joined_at = some s →
        parseTimestamp s = some t → parsePremium p.premium_since = Except.ok pt →
        Member.construct fab g p
          = Except.ok { nick := p.nick, roles := [], joined_at := t,
                        premium_since := pt,
                        user := fab.state_registry.parse_user u,
                        guild := g }) := by
  refine ⟨?_, ?_, ?_, ?_, ?_⟩
  · intro h
    simp [Member.construct, h, constructSucceeds]
  · intro h
    cases hu : p.user with
    | none => simp [Member.construct, hu, constructSucceeds]
    | some u => simp [Member.construct, hu, h, constructSucceeds]
  · intro s hs hp
    cases hu : p.user with
    | none => simp [Member.construct, hu, constructSucceeds]
    | some u => simp [Member.construct, hu, hs, hp, constructSucceeds]
  · intro s hs hp
    cases hu : p.user with
    | none => simp [Member.construct, hu, constructSucceeds]
    | some u =>
      cases hj : p.joined_at with
      | none => simp [Member.construct, hu, hj, constructSucceeds]
      | some js =>
        cases hjt : parseTimestamp js with
        | none => simp [Member.construct, hu, hj, hjt, constructSucceeds]
        | some jt =>
            simp [Member.construct, hu, hj, hjt, parsePremium, hs, hp,
              constructSucceeds]
  · intro u s t pt hr hu hs hp hpp
    simp [Member.construct, hu, hs, hp, hpp, hr]

/-- Counterexample to claim C8 as stated (no raw mapping lacking a
`roles` key can be constructed): the mapping of
test_Member_user_accessor has no `roles` key, and construction
succeeds. -/
theorem C8_counterexample :
    payloadNoRoles.roles = none
    ∧ constructSucceeds
        (Member.construct sampleFabric sampleLegacyGuild payloadNoRoles) = true :=
  ⟨rfl, by decide⟩

/-- Witness for C8_required_keys: the missing-user, missing-joined_at,
malformed-joined_at and malformed-premium_since mappings all fail
construction, and the two roles-less mappings (one without and one with a
well-formed premium_since) construct Members with an empty role list. -/
theorem C8_required_keys_witness :
    constructSucceeds
        (Member.construct sampleFabric sampleLegacyGuild payloadNoUser) = false
    ∧ constructSucceeds
        (Member.construct sampleFabric sampleLegacyGuild payloadNoJoined) = false
    ∧ constructSucceeds
        (Member.construct sampleFabric sampleLegacyGuild payloadBadTimestamp) = false
    ∧ constructSucceeds
        (Member.construct sampleFabric sampleLegacyGuild payloadBadPremium) = false
    ∧ Member.construct sampleFabric sampleLegacyGuild payloadNoRoles
        = Except.ok { nick := none, roles := [], joined_at := ts20190517,
                      premium_since := none, user := { id := "123456" },
                      guild := sampleLegacyGuild }
    ∧ Member.construct sampleFabric sampleLegacyGuild payloadNoRolesPremium
        = Except.ok { nick := none, roles := [], joined_at := ts20150426,
                      premium_since := some ts20190517, user := { id := "123456" },
                      guild := sampleLegacyGuild } := by
  refine ⟨(C8_required_keys sampleFabric sampleLegacyGuild payloadNoUser).1 rfl,
          (C8_required_keys sampleFabric sampleLegacyGuild payloadNoJoined).2.1 rfl,
          (C8_required_keys sampleFabric sampleLegacyGuild payloadBadTimestamp).2.2.1
            ("not-a-timestamp") rfl (by decide),
          (C8_required_keys sampleFabric sampleLegacyGuild payloadBadPremium).2.2.2.1
            ("premium-soon") rfl (by decide),
          ?_, ?_⟩
  · exact (C8_required_keys sampleFabric sampleLegacyGuild payloadNoRoles).2.2.2.2
      { id := "123456" } ("2019-05-17T06:26:56.936000+00:00") ts20190517 none
      rfl rfl rfl (by decide) rfl
  · exact (C8_required_keys sampleFabric sampleLegacyGuild payloadNoRolesPremium).2.2.2.2
      { id := "123456" } ("2015-04-26T06:26:56.936000+00:00") ts20150426
      (some ts20190517) rfl rfl rfl (by decide) rfl

/-- Claim C9: update_state(new_roles, "potato") replaces the legacy
Member's roles with exactly new_roles and its nick with "potato", leaving
joined_at, premium_since, user and guild untouched. -/
theorem C9_update_state_frame (m : Member) (new_roles : List LegacyRole) :
    (m.update_state new_roles (some ("potato"))).roles = new_roles
    ∧ (m.update_state new_roles (some ("potato"))).nick = some ("potato")
    ∧ (m.update_state new_roles (some ("potato"))).joined_at = m.joined_at
    ∧ (m.update_state new_roles (some ("potato"))).premium_since = m.premium_since
    ∧ (m.update_state new_roles (some ("potato"))).user = m.user
    ∧ (m.update_state new_roles (some ("potato"))).guild = m.guild :=
  ⟨rfl, rfl, rfl, rfl, rfl, rfl⟩

/-- A representable option-tree node of sub-command type carrying both a
value and nested options. -/
def bothPopulatedNode : CommandInteractionOption :=
  CommandInteractionOption.mk ("opt") OptionType.SUB_COMMAND
    (some [OptionValue.str ("x")]) (some [])

/-- Counterexample to claim C10 as stated (no node ever has both value
and options populated, and SUB_COMMAND nodes never carry value): a
SUB_COMMAND node with both fields populated is a perfectly representable
value of the model. -/
theorem C10_counterexample :
    bothPopulatedNode.type = OptionType.SUB_COMMAND
    ∧ bothPopulatedNode.value.isSome = true
    ∧ bothPopulatedNode.options.isSome = true :=
  ⟨rfl, rfl, rfl⟩

/-- Claim C10 (amended): the CommandInteractionOption model keeps value
and options as two independent optional fields and does not enforce the
leaf-vs-branch exclusivity — nodes with both populated, and nodes with
neither populated, are representable; exactly-one-populated is a
documented contract on the out-of-scope deserializer, not a structural
invariant of this model. -/
theorem C10_model_admits_nonexclusive_nodes :
    (∃ o : CommandInteractionOption, o.value.isSome = true ∧ o.options.isSome = true)
    ∧ (∃ o : CommandInteractionOption, o.value.isNone = true ∧ o.options.isNone = true) :=
  ⟨⟨bothPopulatedNode, rfl, rfl⟩,
   ⟨CommandInteractionOption.mk ("sc") OptionType.STRING none none, rfl, rfl⟩⟩
